import Mathlib

/-!
Verification development for the controller-expo repository: a BLE
remote-control app (src/app/index.tsx) that drives a two-motor Arduino
vehicle (src/unnamed/part_000, an Arduino sketch).

Controller-side React state and handlers are embedded as pure functions
over an explicit `ControllerState` record; the vehicle's Arduino loop is
embedded as a step function on a record of its global variables.
Machine integers are modelled as `Int` (all values stay far from any
overflow boundary); the C++ double expressions passed to `analogWrite`
are modelled by integer division, which agrees with double-to-int
truncation for the nonnegative values that occur.
-/

/-- The seven remappable symbolic actions of the controller UI, the keys
of DEFAULT_COMMANDS in src/app/index.tsx: F B L R S + -. -/
inductive CmdAction
  | F | B | L | R | S | plus | minus
deriving DecidableEq

/-- A command mapping: one wire string per symbolic action.  This is the
shape of the `commandMap` (active) and `editMap` (working copy) React
state objects. -/
structure CommandMap where
  f : String
  b : String
  l : String
  r : String
  s : String
  plus : String
  minus : String
deriving DecidableEq

/-- Look up the wire string assigned to an action. -/
def CommandMap.get (m : CommandMap) : CmdAction → String
  | .F => m.f
  | .B => m.b
  | .L => m.l
  | .R => m.r
  | .S => m.s
  | .plus => m.plus
  | .minus => m.minus

/-- Replace the wire string assigned to one action (the object spread
`{ ...prev, [key]: v }` in the onChangeText handler). -/
def CommandMap.set (m : CommandMap) (a : CmdAction) (v : String) : CommandMap :=
  match a with
  | .F => { m with f := v }
  | .B => { m with b := v }
  | .L => { m with l := v }
  | .R => { m with r := v }
  | .S => { m with s := v }
  | .plus => { m with plus := v }
  | .minus => { m with minus := v }

/-- DEFAULT_COMMANDS from src/app/index.tsx. -/
def DEFAULT_COMMANDS : CommandMap :=
  { f := "F", b := "B", l := "L", r := "R", s := "S", plus := "+", minus := "-" }

/-- Controller-side state: the React useState cells relevant to the core
(`device`, `serviceUUID`, `characteristicUUID`, `speed`, `commandMap`,
`editMap`).  The connected device is abstracted to its id string. -/
structure ControllerState where
  device : Option String
  serviceUUID : Option String
  characteristicUUID : Option String
  speed : ℤ
  commandMap : CommandMap
  editMap : CommandMap
deriving DecidableEq

/-- Session is connected with a resolved writable service/characteristic
pair: the guard `device && serviceUUID && characteristicUUID` used by
both sendCommand and the connection useEffect. -/
def transmitCapable (st : ControllerState) : Bool :=
  st.device.isSome && st.serviceUUID.isSome && st.characteristicUUID.isSome

/-- Observable outcome of one sendCommand call: the source surfaces these
as an alert ("Not connected to any BLE device or writable
characteristic."), a console log ("Sent: ..."), or a console error
("Send error"). -/
inductive SendOutcome
  | notTransmittable
  | sent
  | transmitError
deriving DecidableEq

/-- sendCommand from src/app/index.tsx.  `writeOk` models whether the BLE
write (writeCharacteristicWithResponseForService) succeeds; the returned
list records the wire writes attempted.  The source mutates no session
state in the guard branch, the success path, or the catch branch. -/
def sendCommand (st : ControllerState) (command : String) (writeOk : Bool) :
    ControllerState × SendOutcome × List String :=
  if transmitCapable st then
    if writeOk then (st, .sent, [command])
    else (st, .transmitError, [command])
  else (st, .notTransmittable, [])

/-- handleSpeedChange from src/app/index.tsx.  Returns the new state and
the concatenated wire writes attempted by the `steps` sendCommand calls.
The JS `steps` is the float Math.abs(next - prev) / 10 and the loop
`for (let i = 0; i < steps; i++)` runs ⌈|next - prev| / 10⌉ times, which
is (|next - prev| + 9) / 10 in Nat arithmetic. -/
def handleSpeedChange (st : ControllerState) (delta : ℤ) (writeOk : Bool) :
    ControllerState × List String :=
  let prev := st.speed
  let n1 := prev + delta
  let n2 := if n1 > 100 then 100 else n1
  let next := if n2 < 0 then 0 else n2
  let steps : ℕ := ((next - prev).natAbs + 9) / 10
  let cmd := if delta > 0 then st.commandMap.plus else st.commandMap.minus
  let writes := (List.replicate steps cmd).flatMap
    (fun c => (sendCommand st c writeOk).2.2)
  ({ st with speed := next }, writes)

/-- Body of the useEffect on [device, serviceUUID, characteristicUUID]
("Send '/' automatically when connected to BLE"): when the session is
transmit-capable it sends "/" and resets the displayed speed to 50;
otherwise it does nothing. -/
def connectionEffect (st : ControllerState) (writeOk : Bool) :
    ControllerState × List String :=
  if transmitCapable st then
    let r := sendCommand st "/" writeOk
    ({ r.1 with speed := 50 }, r.2.2)
  else (st, [])

/-- openSettings from src/app/index.tsx: snapshots the active mapping
into the working copy (the UI-only showSettings/settingsTab flags are
outside the core). -/
def openSettings (st : ControllerState) : ControllerState :=
  { st with editMap := st.commandMap }

/-- saveAdvancedSettings from src/app/index.tsx: commits the working copy
wholesale into the active mapping. -/
def saveAdvancedSettings (st : ControllerState) : ControllerState :=
  { st with commandMap := st.editMap }

/-- Edit of one entry of the working copy, from the advanced-settings
TextInput: the component has maxLength={12}, so onChangeText never
receives a string longer than 12 characters; the handler itself applies
any received value — including the empty string — unconditionally via
`setEditMap((prev) => ({ ...prev, [key]: v }))`. -/
def editMapChange (m : CommandMap) (a : CmdAction) (v : String) : CommandMap :=
  if v.length ≤ 12 then m.set a v else m

/-- A sample transmit-capable controller state (device connected,
writable service/characteristic resolved, speed 50, default mapping). -/
def sampleReady : ControllerState :=
  { device := some "dev", serviceUUID := some "svc",
    characteristicUUID := some "chr", speed := 50,
    commandMap := DEFAULT_COMMANDS, editMap := DEFAULT_COMMANDS }

/-- A sample disconnected controller state. -/
def sampleIdle : ControllerState :=
  { device := none, serviceUUID := none, characteristicUUID := none,
    speed := 50, commandMap := DEFAULT_COMMANDS, editMap := DEFAULT_COMMANDS }

/-- A digital output level, the value of a digitalWrite call
(LOW/HIGH on the Arduino direction pins 2 and 4). -/
inductive PinLevel
  | low | high
deriving DecidableEq

/-- One actuation of the motor driver: direction pins 2 and 4
(digitalWrite) and PWM pins 5 and 6 (analogWrite), in the order the
sketch writes them.  Pin 2 / pin 5 drive the left motor, pin 4 / pin 6
the right motor (per the sketch's own comments in the diagonal
branches). -/
structure Motors where
  dir2 : PinLevel
  pwm5 : ℤ
  dir4 : PinLevel
  pwm6 : ℤ
deriving DecidableEq

/-- PWM duty passed to analogWrite on the full-speed side: the C++
expression `(BLE_Change_SPEED / 10) * 22.5` — integer division by 10,
then double multiplication — implicitly truncated to int by
analogWrite's int parameter.  For nonnegative speed this truncation
equals the integer computation `speed / 10 * 45 / 2`. -/
def pwmFull (speed : ℤ) : ℤ := speed / 10 * 45 / 2

/-- PWM duty passed to analogWrite on the half-speed side: the C++
expression `(BLE_Change_SPEED / 10) * 11.25` truncated to int, i.e.
`speed / 10 * 45 / 4` for nonnegative speed. -/
def pwmHalf (speed : ℤ) : ℤ := speed / 10 * 45 / 4

/-- executeMovement from the Arduino sketch.  Its C++ `value` parameter
is unused by the function body: every PWM value is computed from the
global BLE_Change_SPEED, which this embedding passes explicitly as
`speed`.  A command string matching no branch performs no pin writes
(`none`). -/
def executeMovement (command : String) (speed : ℤ) : Option Motors :=
  if command = "F" then some ⟨.high, pwmFull speed, .low, pwmFull speed⟩
  else if command = "B" then some ⟨.low, pwmFull speed, .high, pwmFull speed⟩
  else if command = "L" then some ⟨.low, pwmHalf speed, .low, pwmHalf speed⟩
  else if command = "R" then some ⟨.high, pwmHalf speed, .high, pwmHalf speed⟩
  else if command = "S" then some ⟨.low, 0, .low, 0⟩
  else if command = "FR" then some ⟨.high, pwmFull speed, .low, pwmHalf speed⟩
  else if command = "FL" then some ⟨.high, pwmHalf speed, .low, pwmFull speed⟩
  else if command = "BR" then some ⟨.low, pwmFull speed, .high, pwmHalf speed⟩
  else if command = "BL" then some ⟨.low, pwmHalf speed, .high, pwmFull speed⟩
  else none

/-- The left motor turns in its forward sense when pin 2 is HIGH,
per the sketch's own comments ("digitalWrite(2, HIGH);  // Left motor
forward"). -/
def leftForward (m : Motors) : Prop := m.dir2 = PinLevel.high

/-- The right motor turns in its forward sense when pin 4 is LOW,
per the sketch's own comments ("digitalWrite(4, LOW);   // Right motor
forward"). -/
def rightForward (m : Motors) : Prop := m.dir4 = PinLevel.low

/-- One Serial.println diagnostic: either a string or an int. -/
inductive Diag
  | text (s : String)
  | num (n : ℤ)
deriving DecidableEq

/-- The vehicle's global variables: the accumulated input buffer
G_Bluetooth_value (as the list of received chars), BLE_Change_SPEED,
and lastMovementCommand. -/
structure VehicleState where
  buffer : List Char
  speed : ℤ
  lastMovement : String
deriving DecidableEq

/-- The globals after setup(): empty buffer, speed 50, and
lastMovementCommand's initializer "S". -/
def setupState : VehicleState := ⟨[], 50, "S"⟩

/-- One evaluation pass of the sketch's loop() over an already
accumulated buffer (the body guarded by
`if (G_Bluetooth_value.length() > 0)`).  Returns the new globals, the
Serial.println diagnostics in emission order, and the actuation
performed (`none` when no executeMovement call is made, as in the
default "Invalid Command" branch).  `cmd.startsWith "FR"` on the
non-empty buffer `c :: rest` is the test `c = 'F' ∧ rest.head? = some
'R'`, and likewise for FL, BR, BL, checked in the source's order before
the single-character switch on `cmd.charAt(0)`.  Every branch clears
the buffer.  In the `+`, `-`, `/` branches the speed global is updated
first, so the executeMovement re-issue of lastMovementCommand reads the
new speed. -/
def loopStep (st : VehicleState) : VehicleState × List Diag × Option Motors :=
  match st.buffer with
  | [] => (st, [], none)
  | c :: rest =>
    if c = 'F' ∧ rest.head? = some 'R' then
      (⟨[], st.speed, "FR"⟩, [.text "FR"], executeMovement "FR" st.speed)
    else if c = 'F' ∧ rest.head? = some 'L' then
      (⟨[], st.speed, "FL"⟩, [.text "FL"], executeMovement "FL" st.speed)
    else if c = 'B' ∧ rest.head? = some 'R' then
      (⟨[], st.speed, "BR"⟩, [.text "BR"], executeMovement "BR" st.speed)
    else if c = 'B' ∧ rest.head? = some 'L' then
      (⟨[], st.speed, "BL"⟩, [.text "BL"], executeMovement "BL" st.speed)
    else
      let echo := Diag.text (String.mk (c :: rest))
      if c = 'F' ∨ c = 'B' ∨ c = 'L' ∨ c = 'R' then
        (⟨[], st.speed, String.mk [c]⟩, [echo],
          executeMovement (String.mk [c]) st.speed)
      else if c = 'S' then
        (⟨[], st.speed, "S"⟩, [echo], executeMovement "S" st.speed)
      else if c = '+' then
        let s2 := if st.speed + 10 > 100 then 100 else st.speed + 10
        (⟨[], s2, st.lastMovement⟩, [echo, .num s2],
          executeMovement st.lastMovement s2)
      else if c = '-' then
        let s2 := if st.speed - 10 < 0 then 0 else st.speed - 10
        (⟨[], s2, st.lastMovement⟩, [echo, .num s2],
          executeMovement st.lastMovement s2)
      else if c = '/' then
        (⟨[], 50, st.lastMovement⟩, [echo, .num 50],
          executeMovement st.lastMovement 50)
      else
        (⟨[], st.speed, st.lastMovement⟩,
          [echo, .text "Invalid Command"], none)

/-! ## Shared lemmas -/

/-- On a transmit-capable session every sendCommand call attempts exactly
the one requested write, whether or not the transport write succeeds. -/
lemma sendCommand_writes_of_capable (st : ControllerState) (c : String)
    (ok : Bool) (h : transmitCapable st = true) :
    (sendCommand st c ok).2.2 = [c] := by
  cases ok <;> simp [sendCommand, h]

/-- On a session that is not transmit-capable sendCommand attempts no
write. -/
lemma sendCommand_writes_of_not_capable (st : ControllerState) (c : String)
    (ok : Bool) (h : transmitCapable st = false) :
    (sendCommand st c ok).2.2 = [] := by
  simp [sendCommand, h]

/-! ## Claims -/

/-- C1: on a transmit-capable session, for a current speed that is a
multiple of 10 in [0,100] and a delta that is a multiple of 10,
handleSpeedChange sets the stored speed to clamp(current + delta, 0,
100) — hence the result stays in [0,100] and a multiple of 10 — and the
wire commands it emits are exactly
|clamp(current + delta, 0, 100) - current| / 10 copies of the SpeedUp
(resp. SpeedDown) wire string. -/
theorem c1_adjust_clamps_and_counts (st : ControllerState) (delta : ℤ)
    (ok : Bool) (hcap : transmitCapable st = true)
    (h0 : 0 ≤ st.speed) (h100 : st.speed ≤ 100)
    (hs : 10 ∣ st.speed) (hd : 10 ∣ delta) :
    (handleSpeedChange st delta ok).1.speed
        = min 100 (max 0 (st.speed + delta)) ∧
    0 ≤ (handleSpeedChange st delta ok).1.speed ∧
    (handleSpeedChange st delta ok).1.speed ≤ 100 ∧
    10 ∣ (handleSpeedChange st delta ok).1.speed ∧
    (handleSpeedChange st delta ok).2
        = List.replicate
            ((min 100 (max 0 (st.speed + delta)) - st.speed).natAbs / 10)
            (if delta > 0 then st.commandMap.plus
              else st.commandMap.minus) := by
  have hw : ∀ c, (sendCommand st c ok).2.2 = [c] :=
    fun c => sendCommand_writes_of_capable st c ok hcap
  simp only [handleSpeedChange, hw]
  refine ⟨?_, ?_, ?_, ?_, ?_⟩
  · split_ifs <;> omega
  · split_ifs <;> omega
  · split_ifs <;> omega
  · split_ifs <;> omega
  · have hrep : ∀ (n : ℕ) (c : String),
        (List.replicate n c).flatMap (fun x => [x]) = List.replicate n c := by
      intro n c
      induction n with
      | zero => rfl
      | succ k ih => simp [List.replicate_succ, ih]
    rw [hrep]
    congr 1
    split_ifs <;> omega

/-- Witness for C1 at the spec's own example: speed 50, adjust(+20)
ends at 70 after emitting two SpeedUp commands. -/
theorem c1_adjust_clamps_and_counts_witness :
    (handleSpeedChange sampleReady 20 true).1.speed
        = min 100 (max 0 (sampleReady.speed + 20)) ∧
    0 ≤ (handleSpeedChange sampleReady 20 true).1.speed ∧
    (handleSpeedChange sampleReady 20 true).1.speed ≤ 100 ∧
    10 ∣ (handleSpeedChange sampleReady 20 true).1.speed ∧
    (handleSpeedChange sampleReady 20 true).2
        = List.replicate
            ((min 100 (max 0 (sampleReady.speed + 20))
                - sampleReady.speed).natAbs / 10)
            (if (20 : ℤ) > 0 then sampleReady.commandMap.plus
              else sampleReady.commandMap.minus) :=
  c1_adjust_clamps_and_counts sampleReady 20 true (by decide) (by decide)
    (by decide) ⟨5, by decide⟩ ⟨2, by decide⟩

/-- C10: handleSpeedChange updates the stored speed to
clamp(current + delta, 0, 100) unconditionally — the new speed is the
same expression whatever the session's connection fields and whatever
the write outcome — while a session that is not transmit-capable
attempts no wire write at all, so the stored speed silently diverges
from the vehicle's counter. -/
theorem c10_speed_update_unconditional (st : ControllerState) (delta : ℤ)
    (ok : Bool) :
    (handleSpeedChange st delta ok).1.speed
        = min 100 (max 0 (st.speed + delta)) ∧
    (transmitCapable st = false → (handleSpeedChange st delta ok).2 = []) := by
  constructor
  · simp only [handleSpeedChange]
    split_ifs <;> omega
  · intro h
    have hw : ∀ c, (sendCommand st c ok).2.2 = ([] : List String) :=
      fun c => sendCommand_writes_of_not_capable st c ok h
    simp [handleSpeedChange, hw]

/-- Witness for C10: a disconnected session at speed 50 given +10 stores
60 yet attempts no write. -/
theorem c10_speed_update_unconditional_witness :
    (handleSpeedChange sampleIdle 10 true).2 = [] ∧
    (handleSpeedChange sampleIdle 10 true).1.speed
        = min 100 (max 0 (sampleIdle.speed + 10)) :=
  ⟨(c10_speed_update_unconditional sampleIdle 10 true).2 (by decide),
    (c10_speed_update_unconditional sampleIdle 10 true).1⟩

/-- C8: sendCommand on a session that is not transmit-capable performs
no write, reports notTransmittable, and leaves the state unchanged; on
a transmit-capable session whose transport write fails it reports
transmitError having attempted the one write; and in every case the
session state is returned unchanged (the session remains Ready). -/
theorem c8_send_failure_frame (st : ControllerState) (command : String)
    (ok : Bool) :
    (transmitCapable st = false →
      sendCommand st command ok = (st, .notTransmittable, [])) ∧
    (transmitCapable st = true → ok = false →
      sendCommand st command ok = (st, .transmitError, [command])) ∧
    (sendCommand st command ok).1 = st := by
  refine ⟨fun h => by simp [sendCommand, h],
    fun h hok => by simp [sendCommand, h, hok], ?_⟩
  unfold sendCommand
  split_ifs <;> rfl

/-- Witness for C8: a disconnected send and a failing connected send. -/
theorem c8_send_failure_frame_witness :
    sendCommand sampleIdle "F" true = (sampleIdle, .notTransmittable, []) ∧
    sendCommand sampleReady "F" false
        = (sampleReady, .transmitError, ["F"]) :=
  ⟨(c8_send_failure_frame sampleIdle "F" true).1 (by decide),
    (c8_send_failure_frame sampleReady "F" false).2.1 (by decide) rfl⟩

/-- C4: whenever the session is transmit-capable (device connected and a
writable service/characteristic pair resolved), the connection effect
sends exactly one "/" (SpeedReset) wire command and resets the stored
speed to 50, leaving every other field unchanged. -/
theorem c4_ready_sends_one_reset (st : ControllerState) (ok : Bool)
    (h : transmitCapable st = true) :
    connectionEffect st ok = ({ st with speed := 50 }, ["/"]) := by
  cases ok <;> simp [connectionEffect, sendCommand, h]

/-- Witness for C4 on a concrete transmit-capable state (with the write
itself failing, which does not affect the attempt or the reset). -/
theorem c4_ready_sends_one_reset_witness :
    connectionEffect sampleReady false
        = ({ sampleReady with speed := 50 }, ["/"]) :=
  c4_ready_sends_one_reset sampleReady false (by decide)

/-- C2: a non-empty input buffer starting with "FR" decodes to
ForwardRight — lastMovementCommand becomes "FR", the ForwardRight
actuation is issued, the buffer is cleared — and never to Forward. -/
theorem c2_diagonal_priority (st : VehicleState) (rest : List Char)
    (h : st.buffer = 'F' :: 'R' :: rest) :
    loopStep st
        = (⟨[], st.speed, "FR"⟩, [.text "FR"],
            executeMovement "FR" st.speed) ∧
    (loopStep st).1.lastMovement = "FR" ∧
    (loopStep st).1.lastMovement ≠ "F" := by
  have he : loopStep st
      = (⟨[], st.speed, "FR"⟩, [.text "FR"],
          executeMovement "FR" st.speed) := by
    simp [loopStep, h]
  refine ⟨he, by rw [he],
    by rw [he]; exact (by decide : ("FR" : String) ≠ "F")⟩

/-- Witness for C2: the two-byte buffer "FR" on the setup state. -/
theorem c2_diagonal_priority_witness :
    loopStep ⟨['F', 'R'], 50, "S"⟩
        = (⟨[], 50, "FR"⟩, [.text "FR"], executeMovement "FR" 50) ∧
    (loopStep ⟨['F', 'R'], 50, "S"⟩).1.lastMovement = "FR" ∧
    (loopStep ⟨['F', 'R'], 50, "S"⟩).1.lastMovement ≠ "F" :=
  c2_diagonal_priority ⟨['F', 'R'], 50, "S"⟩ [] rfl

/-- The '+' branch of loopStep, written with the clamp expressed as min. -/
lemma loopStep_plus (st : VehicleState) (rest : List Char)
    (h : st.buffer = '+' :: rest) :
    loopStep st
        = (⟨[], min (st.speed + 10) 100, st.lastMovement⟩,
            [.text (String.mk ('+' :: rest)),
              .num (min (st.speed + 10) 100)],
            executeMovement st.lastMovement (min (st.speed + 10) 100)) := by
  have hm : (if st.speed + 10 > 100 then (100 : ℤ) else st.speed + 10)
      = min (st.speed + 10) 100 := by split <;> omega
  rw [← hm]
  simp [loopStep, h, (by decide : ('+' : Char) ≠ 'F'),
    (by decide : ('+' : Char) ≠ 'B'), (by decide : ('+' : Char) ≠ 'L'),
    (by decide : ('+' : Char) ≠ 'R'), (by decide : ('+' : Char) ≠ 'S')]

/-- The '-' branch of loopStep, written with the clamp expressed as max. -/
lemma loopStep_minus (st : VehicleState) (rest : List Char)
    (h : st.buffer = '-' :: rest) :
    loopStep st
        = (⟨[], max (st.speed - 10) 0, st.lastMovement⟩,
            [.text (String.mk ('-' :: rest)),
              .num (max (st.speed - 10) 0)],
            executeMovement st.lastMovement (max (st.speed - 10) 0)) := by
  have hm : (if st.speed - 10 < 0 then (0 : ℤ) else st.speed - 10)
      = max (st.speed - 10) 0 := by split <;> omega
  rw [← hm]
  simp [loopStep, h, (by decide : ('-' : Char) ≠ 'F'),
    (by decide : ('-' : Char) ≠ 'B'), (by decide : ('-' : Char) ≠ 'L'),
    (by decide : ('-' : Char) ≠ 'R'), (by decide : ('-' : Char) ≠ 'S'),
    (by decide : ('-' : Char) ≠ '+')]

/-- The '/' branch of loopStep. -/
lemma loopStep_slash (st : VehicleState) (rest : List Char)
    (h : st.buffer = '/' :: rest) :
    loopStep st
        = (⟨[], 50, st.lastMovement⟩,
            [.text (String.mk ('/' :: rest)), .num 50],
            executeMovement st.lastMovement 50) := by
  simp [loopStep, h, (by decide : ('/' : Char) ≠ 'F'),
    (by decide : ('/' : Char) ≠ 'B'), (by decide : ('/' : Char) ≠ 'L'),
    (by decide : ('/' : Char) ≠ 'R'), (by decide : ('/' : Char) ≠ 'S'),
    (by decide : ('/' : Char) ≠ '+'), (by decide : ('/' : Char) ≠ '-')]

/-- C5: a buffer whose first character is '+' sets the local speed to
min(speed + 10, 100), one starting with '-' sets it to
max(speed - 10, 0), and one starting with '/' sets it to 50; in each
case lastMovementCommand is re-issued to the actuator at the new speed
and is itself unchanged. -/
theorem c5_speed_step_reissues (st : VehicleState) (c : Char)
    (rest : List Char) (h : st.buffer = c :: rest) :
    (c = '+' → loopStep st
        = (⟨[], min (st.speed + 10) 100, st.lastMovement⟩,
            [.text (String.mk (c :: rest)),
              .num (min (st.speed + 10) 100)],
            executeMovement st.lastMovement (min (st.speed + 10) 100))) ∧
    (c = '-' → loopStep st
        = (⟨[], max (st.speed - 10) 0, st.lastMovement⟩,
            [.text (String.mk (c :: rest)),
              .num (max (st.speed - 10) 0)],
            executeMovement st.lastMovement (max (st.speed - 10) 0))) ∧
    (c = '/' → loopStep st
        = (⟨[], 50, st.lastMovement⟩,
            [.text (String.mk (c :: rest)), .num 50],
            executeMovement st.lastMovement 50)) := by
  refine ⟨fun hc => ?_, fun hc => ?_, fun hc => ?_⟩ <;> subst hc
  · exact loopStep_plus st rest h
  · exact loopStep_minus st rest h
  · exact loopStep_slash st rest h

/-- Witness for C5 at the boundary case the spec calls out: SpeedUp at
speed 100 leaves the speed at 100 and still re-issues the current
lastMovementCommand ("F") at that speed. -/
theorem c5_speed_step_reissues_witness :
    loopStep ⟨['+'], 100, "F"⟩
        = (⟨[], min (100 + 10) 100, "F"⟩,
            [.text (String.mk ['+']), .num (min (100 + 10) 100)],
            executeMovement "F" (min (100 + 10) 100)) :=
  (c5_speed_step_reissues ⟨['+'], 100, "F"⟩ '+' [] rfl).1 rfl

/-- C7: a buffer whose first character is not one of F, B, L, R, S, +,
-, / decodes to Invalid: no actuation is performed, lastMovementCommand
and the local speed are unchanged, the buffer is cleared, and only the
echo and "Invalid Command" diagnostics are emitted. -/
theorem c7_invalid_is_noop (st : VehicleState) (c : Char)
    (rest : List Char) (h : st.buffer = c :: rest)
    (hc : c ∉ (['F', 'B', 'L', 'R', 'S', '+', '-', '/'] : List Char)) :
    loopStep st
        = (⟨[], st.speed, st.lastMovement⟩,
            [.text (String.mk (c :: rest)), .text "Invalid Command"],
            none) := by
  simp only [List.mem_cons, List.not_mem_nil, or_false, not_or] at hc
  obtain ⟨h1, h2, h3, h4, h5, h6, h7, h8⟩ := hc
  simp [loopStep, h, h1, h2, h3, h4, h5, h6, h7, h8]

/-- Witness for C7: the unknown command byte 'X'. -/
theorem c7_invalid_is_noop_witness :
    loopStep ⟨['X'], 50, "S"⟩
        = (⟨[], 50, "S"⟩,
            [.text (String.mk ['X']), .text "Invalid Command"], none) :=
  c7_invalid_is_noop ⟨['X'], 50, "S"⟩ 'X' [] rfl (by decide)

/-- The nine strings the vehicle ever stores in lastMovementCommand. -/
def movementStrings : List String :=
  ["F", "B", "L", "R", "S", "FR", "FL", "BR", "BL"]

set_option maxHeartbeats 2000000 in
/-- C9: processing '+', '-', or '/' never modifies lastMovementCommand;
in general a pass either leaves lastMovementCommand unchanged or sets it
to one of the nine movement strings; and its initial value is "S"
(Stop). -/
theorem c9_lastMovement_frame (st : VehicleState) :
    ((loopStep st).1.lastMovement = st.lastMovement ∨
      (loopStep st).1.lastMovement ∈ movementStrings) ∧
    (∀ c rest, st.buffer = c :: rest →
      c ∈ (['+', '-', '/'] : List Char) →
      (loopStep st).1.lastMovement = st.lastMovement) ∧
    setupState.lastMovement = "S" := by
  refine ⟨?_, ?_, rfl⟩
  · rcases hb : st.buffer with _ | ⟨c, rest⟩
    · exact Or.inl (by simp [loopStep, hb])
    · simp only [loopStep, hb]
      split_ifs with h1 h2 h3 h4 h5 h6 h7 h8 h9
      · exact Or.inr (by decide : ("FR" : String) ∈ movementStrings)
      · exact Or.inr (by decide : ("FL" : String) ∈ movementStrings)
      · exact Or.inr (by decide : ("BR" : String) ∈ movementStrings)
      · exact Or.inr (by decide : ("BL" : String) ∈ movementStrings)
      · rcases h5 with rfl | rfl | rfl | rfl
        · exact Or.inr
            (by decide : (String.mk ['F'] : String) ∈ movementStrings)
        · exact Or.inr
            (by decide : (String.mk ['B'] : String) ∈ movementStrings)
        · exact Or.inr
            (by decide : (String.mk ['L'] : String) ∈ movementStrings)
        · exact Or.inr
            (by decide : (String.mk ['R'] : String) ∈ movementStrings)
      · exact Or.inr (by decide : ("S" : String) ∈ movementStrings)
      all_goals exact Or.inl rfl
  · intro c rest hb hm
    simp only [List.mem_cons, List.not_mem_nil, or_false] at hm
    rcases hm with rfl | rfl | rfl
    · exact congrArg (fun v => v.1.lastMovement) (loopStep_plus st rest hb)
    · exact congrArg (fun v => v.1.lastMovement) (loopStep_minus st rest hb)
    · exact congrArg (fun v => v.1.lastMovement) (loopStep_slash st rest hb)

/-- Witness for C9: SpeedUp at speed 100 with lastMovementCommand "F"
leaves lastMovementCommand at "F". -/
theorem c9_lastMovement_frame_witness :
    (loopStep ⟨['+'], 100, "F"⟩).1.lastMovement = "F" :=
  (c9_lastMovement_frame ⟨['+'], 100, "F"⟩).2.1 '+' [] rfl (by decide)

/-- C3 counterexample: at speed 30 the ForwardRight command drives the
left side at PWM 67 and the right side at PWM 33 — the full-side value
is not exactly twice the half-side value (truncation breaks the 2:1
ratio), and 67 is not base × 2.25 = 3 × 2.25 = 6.75 either (the code's
factors are 22.5 and 11.25, ten times the claimed ratios). -/
theorem c3_motor_mapping_counterexample :
    executeMovement "FR" 30 = some ⟨.high, 67, .low, 33⟩ ∧
    (67 : ℤ) ≠ 2 * 33 ∧
    ((67 : ℚ) ≠ (((30 : ℤ) / 10 : ℤ) : ℚ) * (9 / 4 : ℚ)) := by
  refine ⟨by decide, by decide, ?_⟩
  norm_num

/-- C3 (amended): for every speed in [0,100] with base = speed/10
(integer division), Forward/Backward drive both sides in the same
rotational sense at the full PWM trunc(base × 22.5); Left/Right drive
both sides at the half PWM trunc(base × 11.25) in opposite rotational
senses (pivot turn); each diagonal command drives one side at the full
and the other at the half PWM, with senses per command; Stop sets both
PWMs to zero; and the full PWM is twice the half PWM up to the loss of
at most one count to truncation. -/
theorem c3_motor_mapping (s : ℤ) (h0 : 0 ≤ s) (h1 : s ≤ 100) :
    (∃ m, executeMovement "F" s = some m ∧ leftForward m ∧
      rightForward m ∧ m.pwm5 = pwmFull s ∧ m.pwm6 = pwmFull s) ∧
    (∃ m, executeMovement "B" s = some m ∧ ¬leftForward m ∧
      ¬rightForward m ∧ m.pwm5 = pwmFull s ∧ m.pwm6 = pwmFull s) ∧
    (∃ m, executeMovement "L" s = some m ∧ ¬leftForward m ∧
      rightForward m ∧ m.pwm5 = pwmHalf s ∧ m.pwm6 = pwmHalf s) ∧
    (∃ m, executeMovement "R" s = some m ∧ leftForward m ∧
      ¬rightForward m ∧ m.pwm5 = pwmHalf s ∧ m.pwm6 = pwmHalf s) ∧
    executeMovement "S" s = some ⟨.low, 0, .low, 0⟩ ∧
    (∃ m, executeMovement "FR" s = some m ∧ leftForward m ∧
      rightForward m ∧ m.pwm5 = pwmFull s ∧ m.pwm6 = pwmHalf s) ∧
    (∃ m, executeMovement "FL" s = some m ∧ leftForward m ∧
      rightForward m ∧ m.pwm5 = pwmHalf s ∧ m.pwm6 = pwmFull s) ∧
    (∃ m, executeMovement "BR" s = some m ∧ ¬leftForward m ∧
      ¬rightForward m ∧ m.pwm5 = pwmFull s ∧ m.pwm6 = pwmHalf s) ∧
    (∃ m, executeMovement "BL" s = some m ∧ ¬leftForward m ∧
      ¬rightForward m ∧ m.pwm5 = pwmHalf s ∧ m.pwm6 = pwmFull s) ∧
    (pwmFull s = 2 * pwmHalf s ∨ pwmFull s = 2 * pwmHalf s + 1) := by
  refine ⟨⟨_, rfl, rfl, rfl, rfl, rfl⟩,
    ⟨_, rfl, (by decide : (PinLevel.low : PinLevel) ≠ .high), ?_, rfl, rfl⟩,
    ⟨_, rfl, (by decide : (PinLevel.low : PinLevel) ≠ .high), rfl, rfl, rfl⟩,
    ⟨_, rfl, rfl, ?_, rfl, rfl⟩,
    rfl,
    ⟨_, rfl, rfl, rfl, rfl, rfl⟩,
    ⟨_, rfl, rfl, rfl, rfl, rfl⟩,
    ⟨_, rfl, (by decide : (PinLevel.low : PinLevel) ≠ .high), ?_, rfl, rfl⟩,
    ⟨_, rfl, (by decide : (PinLevel.low : PinLevel) ≠ .high), ?_, rfl, rfl⟩,
    ?_⟩
  · exact (by decide : (PinLevel.high : PinLevel) ≠ .low)
  · exact (by decide : (PinLevel.high : PinLevel) ≠ .low)
  · exact (by decide : (PinLevel.high : PinLevel) ≠ .low)
  · exact (by decide : (PinLevel.high : PinLevel) ≠ .low)
  · unfold pwmFull pwmHalf
    omega

/-- Witness for C3 (amended) at speed 50: full PWM 112, half PWM 56. -/
theorem c3_motor_mapping_witness :
    (∃ m, executeMovement "F" 50 = some m ∧ leftForward m ∧
      rightForward m ∧ m.pwm5 = pwmFull 50 ∧ m.pwm6 = pwmFull 50) ∧
    executeMovement "S" 50 = some ⟨.low, 0, .low, 0⟩ ∧
    (pwmFull 50 = 2 * pwmHalf 50 ∨ pwmFull 50 = 2 * pwmHalf 50 + 1) := by
  have h := c3_motor_mapping 50 (by decide) (by decide)
  exact ⟨h.1, h.2.2.2.2.1, h.2.2.2.2.2.2.2.2.2⟩

/-- C6 counterexample: the onChangeText edit accepts the empty string —
the working copy for Forward changes to "", and after commit the
Forward action resolves to the empty string, contradicting the claimed
1 ≤ length lower bound. -/
theorem c6_reject_short_counterexample :
    editMapChange DEFAULT_COMMANDS .F ""
        = { DEFAULT_COMMANDS with f := "" } ∧
    editMapChange DEFAULT_COMMANDS .F "" ≠ DEFAULT_COMMANDS ∧
    (saveAdvancedSettings
        { sampleIdle with
            editMap := editMapChange sampleIdle.editMap .F "" }).commandMap.get
        .F = "" := by
  refine ⟨by decide, by decide, by decide⟩

/-- C6 (amended): the edit accepts a value exactly when its length is at
most 12 — a 13-character string is rejected and the working copy is
unchanged for that action, but there is no minimum-length check, and
commit copies the working copy wholesale into the active mapping. -/
theorem c6_length_check (m : CommandMap) (a : CmdAction) (v : String)
    (st : ControllerState) :
    (12 < v.length → editMapChange m a v = m) ∧
    (v.length ≤ 12 → editMapChange m a v = m.set a v) ∧
    (saveAdvancedSettings st).commandMap = st.editMap := by
  refine ⟨fun h => ?_, fun h => by simp [editMapChange, h], rfl⟩
  simp [editMapChange, show ¬v.length ≤ 12 by omega]

/-- Witness for C6 (amended): a 13-character value is rejected, a
2-character value is applied. -/
theorem c6_length_check_witness :
    editMapChange DEFAULT_COMMANDS .F "ABCDEFGHIJKLM" = DEFAULT_COMMANDS ∧
    editMapChange DEFAULT_COMMANDS .F "UP"
        = DEFAULT_COMMANDS.set .F "UP" :=
  ⟨(c6_length_check DEFAULT_COMMANDS .F "ABCDEFGHIJKLM" sampleIdle).1
      (by decide),
    (c6_length_check DEFAULT_COMMANDS .F "UP" sampleIdle).2.1 (by decide)⟩
